import Mathlib

/-!
Verification of the EKG waveform synthesis engine.

The timing layer (sample counts, times, cycle positions, window boundaries)
is embedded over `ℚ`; voltage values, which the program computes with
transcendental functions (`Math.sin`, `Math.exp`, `Math.pow`), are embedded
over `ℝ`.  `Math.round` is `⌊x + 1/2⌋` (JavaScript rounds half away from
zero toward positive infinity for positive halves, i.e. `floor(x+0.5)`), and
the JavaScript remainder `x % 1` on a non-negative dividend is `x - ⌊x⌋`.
-/

/-- JavaScript `Math.round`: rounds to the nearest integer, halves up. -/
def jsRound (q : ℚ) : ℤ := ⌊q + 1/2⌋

/-- JavaScript `x % 1`: `x - trunc x` (truncation toward zero). -/
noncomputable def jsFmod1 (x : ℝ) : ℝ := x - (if 0 ≤ x then (⌊x⌋ : ℝ) else (⌈x⌉ : ℝ))

/-- The twelve standard EKG leads (`Lead` in `types.ts`). -/
inductive Lead
  | I | II | III | aVR | aVL | aVF | V1 | V2 | V3 | V4 | V5 | V6
deriving DecidableEq

/-- QRS morphology tag from the `RhythmProfile` interface. -/
inductive Morphology
  | normal | wide | irregular
deriving DecidableEq

/-- P-wave component of a rhythm profile. -/
structure PWaveSpec where
  amplitude : ℚ
  duration : ℚ
  present : Bool
deriving DecidableEq

/-- QRS component of a rhythm profile. -/
structure QrsSpec where
  amplitude : ℚ
  duration : ℚ
  morphology : Morphology
deriving DecidableEq

/-- T-wave component of a rhythm profile. -/
structure TWaveSpec where
  amplitude : ℚ
  duration : ℚ
  present : Bool
deriving DecidableEq

/-- The `RhythmProfile` interface from `types.ts`. -/
structure RhythmProfile where
  name : String
  description : String
  baselineNoise : ℚ
  pWave : PWaveSpec
  qrsComplex : QrsSpec
  tWave : TWaveSpec
  rateVariability : ℚ
deriving DecidableEq

/-- An `{x, y}` sample (`WaveformPoint` in `types.ts`): `x` is the time in
seconds, `y` the voltage. -/
structure WaveformPoint where
  x : ℚ
  y : ℝ

/-- `getNormalRhythmProfile` from `rhythmProfiles.ts`: base normal-sinus
profile with lead-specific amplitude modifications. -/
def getNormalRhythmProfile (lead : Lead) (prInterval : ℚ) : RhythmProfile :=
  let baseProfile : RhythmProfile := {
    name := "Normal Sinus Rhythm"
    description := "Regular rhythm with normal P waves, QRS complexes, and T waves"
    baselineNoise := 0.02
    pWave := { amplitude := 0.2, duration := 0.08, present := true }
    qrsComplex := { amplitude := 1.0, duration := 0.08, morphology := Morphology.normal }
    tWave := { amplitude := 0.3, duration := 0.16, present := true }
    rateVariability := 0.05 }
  match lead with
  | Lead.I => { baseProfile with qrsComplex := { baseProfile.qrsComplex with amplitude := 0.8 } }
  | Lead.II => { baseProfile with
      pWave := { baseProfile.pWave with amplitude := 0.25 }
      qrsComplex := { baseProfile.qrsComplex with amplitude := 1.1 } }
  | Lead.III => { baseProfile with
      qrsComplex := { baseProfile.qrsComplex with amplitude := 0.7 }
      tWave := { baseProfile.tWave with amplitude := 0.2 } }
  | Lead.aVR => { baseProfile with
      pWave := { baseProfile.pWave with amplitude := -0.15 }
      qrsComplex := { baseProfile.qrsComplex with amplitude := -0.7 }
      tWave := { baseProfile.tWave with amplitude := -0.2 } }
  | Lead.aVL => { baseProfile with qrsComplex := { baseProfile.qrsComplex with amplitude := 0.6 } }
  | Lead.aVF => { baseProfile with qrsComplex := { baseProfile.qrsComplex with amplitude := 0.8 } }
  | Lead.V1 => { baseProfile with
      qrsComplex := { baseProfile.qrsComplex with amplitude := 0.7 }
      tWave := { baseProfile.tWave with amplitude := -0.1 } }
  | Lead.V2 => { baseProfile with qrsComplex := { baseProfile.qrsComplex with amplitude := 1.2 } }
  | Lead.V3 => { baseProfile with qrsComplex := { baseProfile.qrsComplex with amplitude := 1.5 } }
  | Lead.V4 => { baseProfile with qrsComplex := { baseProfile.qrsComplex with amplitude := 1.8 } }
  | Lead.V5 => { baseProfile with qrsComplex := { baseProfile.qrsComplex with amplitude := 1.5 } }
  | Lead.V6 => { baseProfile with qrsComplex := { baseProfile.qrsComplex with amplitude := 1.2 } }

/-- `getAFibRhythmProfile` from `rhythmProfiles.ts`. -/
def getAFibRhythmProfile (lead : Lead) : RhythmProfile :=
  let baseProfile : RhythmProfile := {
    name := "Atrial Fibrillation"
    description := "Irregular rhythm with absence of P waves, replaced by fibrillatory waves"
    baselineNoise := 0.05
    pWave := { amplitude := 0, duration := 0, present := false }
    qrsComplex := { amplitude := 1.0, duration := 0.08, morphology := Morphology.normal }
    tWave := { amplitude := 0.3, duration := 0.16, present := true }
    rateVariability := 0.4 }
  match lead with
  | Lead.II => { baseProfile with qrsComplex := { baseProfile.qrsComplex with amplitude := 1.1 } }
  | Lead.V1 => { baseProfile with baselineNoise := 0.07 }
  | _ => baseProfile

/-- `getVTachRhythmProfile` from `rhythmProfiles.ts`. -/
def getVTachRhythmProfile (lead : Lead) : RhythmProfile :=
  let baseProfile : RhythmProfile := {
    name := "Ventricular Tachycardia"
    description := "Rapid, regular rhythm with wide, bizarre QRS complexes"
    baselineNoise := 0.03
    pWave := { amplitude := 0, duration := 0, present := false }
    qrsComplex := { amplitude := 1.8, duration := 0.16, morphology := Morphology.wide }
    tWave := { amplitude := 0.5, duration := 0.12, present := true }
    rateVariability := 0.1 }
  match lead with
  | Lead.V1 => { baseProfile with qrsComplex := { baseProfile.qrsComplex with amplitude := 2.0 } }
  | Lead.V2 => { baseProfile with qrsComplex := { baseProfile.qrsComplex with amplitude := 2.0 } }
  | Lead.V6 => { baseProfile with qrsComplex := { baseProfile.qrsComplex with amplitude := 1.6 } }
  | _ => baseProfile

/-- `sampleRate = 250` samples per second (`waveformGenerator.ts`). -/
def sampleRate : ℚ := 250

/-- `cycleLength`: seconds per beat, `(60000 / heartRate) / 1000`. -/
def cycleLength (heartRate : ℚ) : ℚ := (60000 / heartRate) / 1000

/-- `pointsPerCycle = Math.round(cycleLength * sampleRate)`. -/
def pointsPerCycle (heartRate : ℚ) : ℤ := jsRound (cycleLength heartRate * sampleRate)

/-- `secondsToGenerate = Math.max(5, 3 * cycleLength)`. -/
def secondsToGenerate (heartRate : ℚ) : ℚ := max 5 (3 * cycleLength heartRate)

/-- `totalPoints = Math.round(secondsToGenerate * sampleRate)`; the `for`
loop runs zero times when this is not positive, hence `Int.toNat`. -/
def totalPoints (heartRate : ℚ) : ℕ := (jsRound (secondsToGenerate heartRate * sampleRate)).toNat

/-- The Gaussian-pulse helper from `waveformGenerator.ts`:
`amplitude * exp(-pow(x - mu, 2) / (2 * pow(sigma, 2)))`. -/
noncomputable def gaussian (x mu sigma amplitude : ℝ) : ℝ :=
  amplitude * Real.exp (-((x - mu) ^ 2) / (2 * sigma ^ 2))

/-- `stSegmentDuration = Math.max(0.05, qtInterval - qrsWidth - 0.16)` in
`generateNormalSinusPoint` (tDuration is the constant `0.16`). -/
def normalStSegmentDuration (qrsWidth qtInterval : ℚ) : ℚ :=
  max 0.05 (qtInterval - qrsWidth - 0.16)

/-- `tStart = qrsEnd + stSegmentDuration` in `generateNormalSinusPoint`,
where `qrsEnd = prInterval + qrsWidth`. -/
def normalTStart (prInterval qrsWidth qtInterval : ℚ) : ℚ :=
  prInterval + qrsWidth + normalStSegmentDuration qrsWidth qtInterval

/-- `generateNormalSinusPoint` from `waveformGenerator.ts`.  The four `if`
blocks of the source mutate `value` in sequence; they are embedded as the
chain `v1 → v2 → v3 → v4`.  The source reads `profile.stElevation`, a field
absent from the `RhythmProfile` interface, so `(profile.stElevation || 0)`
is the constant `0`. -/
noncomputable def generateNormalSinusPoint (position : ℚ) (profile : RhythmProfile)
    (prInterval qrsWidth qtInterval : ℚ) : ℝ :=
  let pDuration : ℚ := 0.08
  let pStart : ℚ := 0.04
  let pEnd : ℚ := pStart + pDuration
  let qrsStart : ℚ := prInterval
  let qrsEnd : ℚ := qrsStart + qrsWidth
  let tDuration : ℚ := 0.16
  let tStart : ℚ := normalTStart prInterval qrsWidth qtInterval
  let tEnd : ℚ := tStart + tDuration
  let v1 : ℝ :=
    if pStart ≤ position ∧ position < pEnd then
      (profile.pWave.amplitude : ℝ) *
        Real.sin (Real.pi * (((position - pStart) / pDuration : ℚ) : ℝ))
    else 0
  let v2 : ℝ :=
    if qrsStart ≤ position ∧ position < qrsEnd then
      let qrsPosition : ℚ := (position - qrsStart) / qrsWidth
      if qrsPosition < 0.2 then
        v1 - (profile.qrsComplex.amplitude : ℝ) * 0.2 * ((qrsPosition / 0.2 : ℚ) : ℝ)
      else if qrsPosition < 0.4 then
        v1 + (profile.qrsComplex.amplitude : ℝ) *
          ((((qrsPosition - 0.2) / 0.2 : ℚ) : ℝ) ^ (0.8 : ℝ))
      else if qrsPosition < 0.7 then
        v1 + (profile.qrsComplex.amplitude : ℝ) *
          (1 - (((qrsPosition - 0.4) / 0.3 : ℚ) : ℝ) * 1.2)
      else
        (v1 + (profile.qrsComplex.amplitude : ℝ) *
          (1 - (((qrsPosition - 0.7) / 0.3 : ℚ) : ℝ))) *
          max 0 (1 - (((qrsPosition - 0.7) / 0.3 : ℚ) : ℝ))
    else v1
  let v3 : ℝ :=
    if qrsEnd ≤ position ∧ position < tStart then v2 + 0 * 0.05 else v2
  let v4 : ℝ :=
    if tStart ≤ position ∧ position < tEnd then
      v3 + (profile.tWave.amplitude : ℝ) *
        gaussian (((position - tStart) / tDuration : ℚ) : ℝ) 0.4 0.3 1
    else v3
  v4

/-- The deterministic per-beat variation of `generateAFibPoint`:
`Math.sin(cycle * 0.31) * Math.cos(cycle * 0.77) * Math.sin(cycle * 1.23)`. -/
noncomputable def afibCycleVariation (cycle : ℤ) : ℝ :=
  Real.sin ((cycle : ℝ) * 0.31) * Real.cos ((cycle : ℝ) * 0.77) *
    Real.sin ((cycle : ℝ) * 1.23)

/-- `baseRR = 1.0 / (1 + cycleVariation * rrVariationFactor)` with
`rrVariationFactor = 0.2` in `generateAFibPoint`. -/
noncomputable def afibBaseRR (cycle : ℤ) : ℝ :=
  1.0 / (1 + afibCycleVariation cycle * 0.2)

/-- `adjustedPosition = (position * baseRR) % 1` in `generateAFibPoint`. -/
noncomputable def afibAdjustedPosition (position : ℚ) (cycle : ℤ) : ℝ :=
  jsFmod1 ((position : ℝ) * afibBaseRR cycle)

/-- `generateAFibPoint` from `waveformGenerator.ts`: fibrillatory sine
baseline, then QRS/ST/T windows evaluated at `adjustedPosition`. -/
noncomputable def generateAFibPoint (position : ℚ) (cycle : ℤ) (profile : RhythmProfile)
    (qrsWidth qtInterval : ℚ) : ℝ :=
  let v0 : ℝ :=
    Real.sin ((position : ℝ) * 120) * 0.03 +
    Real.sin ((position : ℝ) * 137) * 0.02 +
    Real.sin ((position : ℝ) * 146) * 0.025
  let adjustedPosition : ℝ := afibAdjustedPosition position cycle
  let qrsStart : ℚ := 0.2
  let qrsEnd : ℚ := qrsStart + qrsWidth
  let tDuration : ℚ := 0.16
  let stSegmentDuration : ℚ := max 0.05 (qtInterval - qrsWidth - tDuration)
  let tStart : ℚ := qrsEnd + stSegmentDuration
  let tEnd : ℚ := tStart + tDuration
  let v1 : ℝ :=
    if (qrsStart : ℝ) ≤ adjustedPosition ∧ adjustedPosition < (qrsEnd : ℝ) then
      let qrsPosition : ℝ := (adjustedPosition - (qrsStart : ℝ)) / (qrsWidth : ℝ)
      if qrsPosition < 0.2 then
        v0 - (profile.qrsComplex.amplitude : ℝ) * 0.2 * (qrsPosition / 0.2)
      else if qrsPosition < 0.4 then
        v0 + (profile.qrsComplex.amplitude : ℝ) * (((qrsPosition - 0.2) / 0.2) ^ (0.8 : ℝ))
      else if qrsPosition < 0.7 then
        v0 + (profile.qrsComplex.amplitude : ℝ) * (1 - ((qrsPosition - 0.4) / 0.3) * 1.2)
      else
        (v0 + (profile.qrsComplex.amplitude : ℝ) * (1 - ((qrsPosition - 0.7) / 0.3))) *
          max 0 (1 - ((qrsPosition - 0.7) / 0.3))
    else v0
  let v2 : ℝ :=
    if (qrsEnd : ℝ) ≤ adjustedPosition ∧ adjustedPosition < (tStart : ℝ) then
      v1 + 0 * 0.05
    else v1
  let v3 : ℝ :=
    if (tStart : ℝ) ≤ adjustedPosition ∧ adjustedPosition < (tEnd : ℝ) then
      v2 + (profile.tWave.amplitude : ℝ) *
        gaussian ((adjustedPosition - (tStart : ℝ)) / (tDuration : ℝ)) 0.4 0.3 0.9
    else v2
  v3

/-- `wideQrsWidth = Math.max(0.12, qrsWidth)` in `generateVTachPoint`. -/
def wideQrsWidth (qrsWidth : ℚ) : ℚ := max 0.12 qrsWidth

/-- `generateVTachPoint` from `waveformGenerator.ts`: wide bizarre QRS with
a notch term, fixed ST depression, inverted T wave. -/
noncomputable def generateVTachPoint (position : ℚ) (profile : RhythmProfile)
    (qrsWidth qtInterval : ℚ) : ℝ :=
  let w : ℚ := wideQrsWidth qrsWidth
  let qrsStart : ℚ := 0.1
  let qrsEnd : ℚ := qrsStart + w
  let tDuration : ℚ := 0.16
  let stSegmentDuration : ℚ := max 0.02 (qtInterval - w - tDuration)
  let tStart : ℚ := qrsEnd + stSegmentDuration
  let tEnd : ℚ := tStart + tDuration
  let v1 : ℝ :=
    if qrsStart ≤ position ∧ position < qrsEnd then
      let qrsPosition : ℚ := (position - qrsStart) / w
      if qrsPosition < 0.4 then
        (profile.qrsComplex.amplitude : ℝ) * 1.2 * (((qrsPosition / 0.4 : ℚ) : ℝ) ^ (1.5 : ℝ))
      else if qrsPosition < 0.7 then
        (profile.qrsComplex.amplitude : ℝ) * (1.0 - (((qrsPosition - 0.4) / 0.3 : ℚ) : ℝ)) +
          Real.sin (((qrsPosition : ℚ) : ℝ) * 20) * 0.1
      else
        (profile.qrsComplex.amplitude : ℝ) * 0.7 * (1.0 - (((qrsPosition - 0.7) / 0.3 : ℚ) : ℝ))
    else 0
  let v2 : ℝ := if qrsEnd ≤ position ∧ position < tStart then v1 - 0.1 else v1
  let v3 : ℝ :=
    if tStart ≤ position ∧ position < tEnd then
      v2 - (profile.tWave.amplitude : ℝ) * 0.7 *
        gaussian (((position - tStart) / tDuration : ℚ) : ℝ) 0.45 0.35 1
    else v2
  v3

/-- One iteration of the sampling loop of `generateWaveform`: the sample at
index `i`.  `noise i` stands for the `Math.random()` value drawn for sample
`i` when `addNoise` is set. -/
noncomputable def samplePoint (rhythm : String) (heartRate : ℚ) (lead : Lead)
    (prInterval : ℚ) (addNoise : Bool) (qrsWidth qtInterval amplitudeGain : ℚ)
    (noise : ℕ → ℝ) (i : ℕ) : WaveformPoint :=
  let timeInSeconds : ℚ := (i : ℚ) / sampleRate
  let cycle : ℤ := ⌊(i : ℚ) / ((pointsPerCycle heartRate : ℤ) : ℚ)⌋
  let cyclePosition : ℚ :=
    (((i : ℤ) % pointsPerCycle heartRate : ℤ) : ℚ) / ((pointsPerCycle heartRate : ℤ) : ℚ)
  let rhythmProfile : RhythmProfile :=
    if rhythm = "normal" then getNormalRhythmProfile lead prInterval
    else if rhythm = "afib" then getAFibRhythmProfile lead
    else if rhythm = "vtach" then getVTachRhythmProfile lead
    else getNormalRhythmProfile lead prInterval
  let noiseAmplitude : ℚ := if addNoise then rhythmProfile.baselineNoise else 0
  let baselineMv : ℝ := 0
  let y1 : ℝ :=
    if rhythm = "normal" then
      baselineMv + generateNormalSinusPoint cyclePosition rhythmProfile prInterval qrsWidth qtInterval
    else if rhythm = "afib" then
      baselineMv + generateAFibPoint cyclePosition cycle rhythmProfile qrsWidth qtInterval
    else if rhythm = "vtach" then
      baselineMv + generateVTachPoint cyclePosition rhythmProfile qrsWidth qtInterval
    else baselineMv
  let normalizedGain : ℚ :=
    amplitudeGain * (if lead = Lead.II ∨ lead = Lead.V5 then 1.0
      else if lead = Lead.V1 ∨ lead = Lead.V2 then 1.2 else 0.9)
  let y2 : ℝ := y1 * (normalizedGain : ℝ)
  let dynamicNoiseScale : ℚ := 0.05 * (1 + (heartRate - 70) / 100)
  let y3 : ℝ :=
    if addNoise then
      y2 + (noise i * 2 - 1) * (noiseAmplitude : ℝ) * ((dynamicNoiseScale : ℚ) : ℝ)
    else y2
  { x := timeInSeconds, y := y3 }

/-- `generateWaveform` from `waveformGenerator.ts` (final variant): the
sampling loop pushes `totalPoints` samples in index order. -/
noncomputable def generateWaveform (rhythm : String) (heartRate : ℚ) (lead : Lead)
    (prInterval : ℚ) (addNoise : Bool) (qrsWidth qtInterval amplitudeGain : ℚ)
    (noise : ℕ → ℝ) : List WaveformPoint :=
  (List.range (totalPoints heartRate)).map
    (samplePoint rhythm heartRate lead prInterval addNoise qrsWidth qtInterval amplitudeGain noise)

/-- An all-zero noise oracle, used to state claims about `addNoise = false`
calls at a concrete input. -/
def noNoise : ℕ → ℝ := fun _ => 0

lemma generateWaveform_length (rhythm : String) (heartRate : ℚ) (lead : Lead)
    (prInterval : ℚ) (addNoise : Bool) (qrsWidth qtInterval amplitudeGain : ℚ)
    (noise : ℕ → ℝ) :
    (generateWaveform rhythm heartRate lead prInterval addNoise qrsWidth qtInterval
      amplitudeGain noise).length = totalPoints heartRate := by
  simp [generateWaveform]

lemma totalPoints_ge (heartRate : ℚ) : 1250 ≤ totalPoints heartRate := by
  have h5 : (5 : ℚ) ≤ secondsToGenerate heartRate := le_max_left _ _
  have h : (1250 : ℚ) ≤ secondsToGenerate heartRate * sampleRate := by
    have h2 : (5 : ℚ) * 250 ≤ secondsToGenerate heartRate * 250 :=
      mul_le_mul_of_nonneg_right h5 (by norm_num)
    calc (1250 : ℚ) = 5 * 250 := by norm_num
      _ ≤ secondsToGenerate heartRate * 250 := h2
      _ = secondsToGenerate heartRate * sampleRate := by rw [sampleRate]
  have hfl : (1250 : ℤ) ≤ jsRound (secondsToGenerate heartRate * sampleRate) := by
    have : ((1250 : ℤ) : ℚ) ≤ secondsToGenerate heartRate * sampleRate + 1/2 := by
      push_cast; linarith
    exact Int.le_floor.mpr this
  have := Int.toNat_le_toNat hfl
  simpa [totalPoints] using this

lemma generateWaveform_getD (rhythm : String) (heartRate : ℚ) (lead : Lead)
    (prInterval : ℚ) (addNoise : Bool) (qrsWidth qtInterval amplitudeGain : ℚ)
    (noise : ℕ → ℝ) (i : ℕ) (h : i < totalPoints heartRate) :
    (generateWaveform rhythm heartRate lead prInterval addNoise qrsWidth qtInterval
      amplitudeGain noise).getD i ⟨0, 0⟩ =
    samplePoint rhythm heartRate lead prInterval addNoise qrsWidth qtInterval
      amplitudeGain noise i := by
  simp [generateWaveform, List.getD_eq_getElem?_getD, List.getElem?_map,
    List.getElem?_range, h]

lemma cycleLength_eq (heartRate : ℚ) : cycleLength heartRate = 60 / heartRate := by
  unfold cycleLength
  rw [div_div, mul_comm, ← div_div]
  norm_num

/-- C1: For every heartRate > 0 (and in fact for every heart rate) and every
rhythm, lead and parameter set, `generateWaveform` returns exactly
`round(250 × max(5, 3 × 60/heartRate))` samples, the same count for all
rhythms. -/
theorem generateWaveform_length_spec (rhythm : String) (heartRate : ℚ) (lead : Lead)
    (prInterval : ℚ) (addNoise : Bool) (qrsWidth qtInterval amplitudeGain : ℚ)
    (noise : ℕ → ℝ) (hhr : 0 < heartRate) :
    (generateWaveform rhythm heartRate lead prInterval addNoise qrsWidth qtInterval
      amplitudeGain noise).length =
      (jsRound (250 * max 5 (3 * (60 / heartRate)))).toNat ∧
    ∀ rhythm₂ : String,
      (generateWaveform rhythm₂ heartRate lead prInterval addNoise qrsWidth qtInterval
        amplitudeGain noise).length =
      (generateWaveform rhythm heartRate lead prInterval addNoise qrsWidth qtInterval
        amplitudeGain noise).length := by
  constructor
  · rw [generateWaveform_length]
    unfold totalPoints secondsToGenerate
    rw [cycleLength_eq]
    norm_num [sampleRate, mul_comm]
  · intro rhythm₂
    rw [generateWaveform_length, generateWaveform_length]

/-- C1 witness. -/
theorem generateWaveform_length_spec_witness :
    (0 : ℚ) < 60 ∧
    (generateWaveform "normal" 60 Lead.II 0.16 false 0.08 0.36 1 noNoise).length =
      (jsRound (250 * max 5 (3 * (60 / 60)))).toNat :=
  ⟨by norm_num,
   (generateWaveform_length_spec "normal" 60 Lead.II 0.16 false 0.08 0.36 1 noNoise
     (by norm_num)).1⟩

/-- C3: For every `qrsWidth`, the effective VTach QRS width `wideQrsWidth` is
`max(0.12, qrsWidth)`, hence at least `0.12` (input `0.06` yields `0.12`),
and `generateVTachPoint` behaves exactly as if called with the floored
width. -/
theorem vtach_qrs_width_floor :
    (∀ qrsWidth : ℚ, 0.12 ≤ wideQrsWidth qrsWidth) ∧
    wideQrsWidth 0.06 = 0.12 ∧
    (∀ (position : ℚ) (profile : RhythmProfile) (qrsWidth qtInterval : ℚ),
      generateVTachPoint position profile qrsWidth qtInterval =
        generateVTachPoint position profile (wideQrsWidth qrsWidth) qtInterval) := by
  refine ⟨fun qrsWidth => le_max_left _ _, by norm_num [wideQrsWidth], ?_⟩
  intro position profile qrsWidth qtInterval
  unfold generateVTachPoint
  rw [show wideQrsWidth (wideQrsWidth qrsWidth) = wideQrsWidth qrsWidth from
    max_eq_right (le_max_left _ _)]

/-- C4: With `addNoise = false`, `generateWaveform` does not depend on the
random-noise oracle: any two calls with identical parameters give identical
sample lists; and the AFib RR-variation factor is a deterministic function
of the cycle index alone, namely `afibBaseRR`. -/
theorem generateWaveform_deterministic (rhythm : String) (heartRate : ℚ) (lead : Lead)
    (prInterval : ℚ) (qrsWidth qtInterval amplitudeGain : ℚ) (noise₁ noise₂ : ℕ → ℝ) :
    generateWaveform rhythm heartRate lead prInterval false qrsWidth qtInterval
      amplitudeGain noise₁ =
    generateWaveform rhythm heartRate lead prInterval false qrsWidth qtInterval
      amplitudeGain noise₂ ∧
    ∀ cycle : ℤ, afibBaseRR cycle =
      1 / (1 + Real.sin ((cycle : ℝ) * 0.31) * Real.cos ((cycle : ℝ) * 0.77) *
        Real.sin ((cycle : ℝ) * 1.23) * 0.2) := by
  refine ⟨?_, fun cycle => by norm_num [afibBaseRR, afibCycleVariation]⟩
  unfold generateWaveform
  apply List.map_congr_left
  intro i _
  rfl

lemma samplePoint_x (rhythm : String) (heartRate : ℚ) (lead : Lead) (prInterval : ℚ)
    (addNoise : Bool) (qrsWidth qtInterval amplitudeGain : ℚ) (noise : ℕ → ℝ) (i : ℕ) :
    (samplePoint rhythm heartRate lead prInterval addNoise qrsWidth qtInterval
      amplitudeGain noise i).x = (i : ℚ) / 250 := rfl

/-- C5: the sample sequence has `x = i / 250` at index `i`, strictly
increasing times, and time `0` at index `0`, for every parameter set with
positive heart rate. -/
theorem generateWaveform_times (rhythm : String) (heartRate : ℚ) (lead : Lead)
    (prInterval : ℚ) (addNoise : Bool) (qrsWidth qtInterval amplitudeGain : ℚ)
    (noise : ℕ → ℝ) (hhr : 0 < heartRate) :
    (∀ i : ℕ, i < (generateWaveform rhythm heartRate lead prInterval addNoise qrsWidth
        qtInterval amplitudeGain noise).length →
      ((generateWaveform rhythm heartRate lead prInterval addNoise qrsWidth qtInterval
        amplitudeGain noise).getD i ⟨0, 0⟩).x = (i : ℚ) / 250) ∧
    (∀ i j : ℕ, i < j → j < (generateWaveform rhythm heartRate lead prInterval addNoise
        qrsWidth qtInterval amplitudeGain noise).length →
      ((generateWaveform rhythm heartRate lead prInterval addNoise qrsWidth qtInterval
        amplitudeGain noise).getD i ⟨0, 0⟩).x <
      ((generateWaveform rhythm heartRate lead prInterval addNoise qrsWidth qtInterval
        amplitudeGain noise).getD j ⟨0, 0⟩).x) ∧
    ((generateWaveform rhythm heartRate lead prInterval addNoise qrsWidth qtInterval
      amplitudeGain noise).getD 0 ⟨0, 0⟩).x = 0 := by
  have hlen := generateWaveform_length rhythm heartRate lead prInterval addNoise qrsWidth
    qtInterval amplitudeGain noise
  have hx : ∀ i : ℕ, i < (generateWaveform rhythm heartRate lead prInterval addNoise qrsWidth
      qtInterval amplitudeGain noise).length →
      ((generateWaveform rhythm heartRate lead prInterval addNoise qrsWidth qtInterval
        amplitudeGain noise).getD i ⟨0, 0⟩).x = (i : ℚ) / 250 := by
    intro i hi
    rw [hlen] at hi
    rw [generateWaveform_getD rhythm heartRate lead prInterval addNoise qrsWidth qtInterval
      amplitudeGain noise i hi, samplePoint_x]
  refine ⟨hx, ?_, ?_⟩
  · intro i j hij hj
    have hi : i < (generateWaveform rhythm heartRate lead prInterval addNoise qrsWidth
        qtInterval amplitudeGain noise).length := lt_trans hij hj
    rw [hx i hi, hx j hj]
    have : (i : ℚ) < (j : ℚ) := by exact_mod_cast hij
    linarith
  · have h0 : 0 < (generateWaveform rhythm heartRate lead prInterval addNoise qrsWidth
        qtInterval amplitudeGain noise).length := by
      rw [hlen]; have := totalPoints_ge heartRate; omega
    rw [hx 0 h0]
    norm_num

/-- C5 witness. -/
theorem generateWaveform_times_witness :
    (0 : ℚ) < 60 ∧
    ((generateWaveform "normal" 60 Lead.II 0.16 false 0.08 0.36 1 noNoise).getD 0
      ⟨0, 0⟩).x = 0 :=
  ⟨by norm_num,
   (generateWaveform_times "normal" 60 Lead.II 0.16 false 0.08 0.36 1 noNoise
     (by norm_num)).2.2⟩

/-- C10: in the AFib generator the RR-scaling denominator
`1 + cycleVariation × 0.2` lies in `[0.8, 1.2]` (never zero), `baseRR` is
positive, and the adjusted position lies in `[0, 1)` whenever the cycle
position does. -/
theorem afib_rr_denominator_safe (cycle : ℤ) (position : ℚ)
    (h0 : 0 ≤ position) (h1 : position < 1) :
    0.8 ≤ 1 + afibCycleVariation cycle * 0.2 ∧
    1 + afibCycleVariation cycle * 0.2 ≤ 1.2 ∧
    0 < afibBaseRR cycle ∧
    0 ≤ afibAdjustedPosition position cycle ∧
    afibAdjustedPosition position cycle < 1 := by
  have hcv : |afibCycleVariation cycle| ≤ 1 := by
    unfold afibCycleVariation
    rw [abs_mul, abs_mul]
    have h₁ := Real.abs_sin_le_one ((cycle : ℝ) * 0.31)
    have h₂ := Real.abs_cos_le_one ((cycle : ℝ) * 0.77)
    have h₃ := Real.abs_sin_le_one ((cycle : ℝ) * 1.23)
    have hab : |Real.sin ((cycle : ℝ) * 0.31)| * |Real.cos ((cycle : ℝ) * 0.77)| ≤ 1 :=
      mul_le_one₀ h₁ (abs_nonneg _) h₂
    exact mul_le_one₀ hab (abs_nonneg _) h₃
  obtain ⟨hcvl, hcvu⟩ := abs_le.mp hcv
  have hd₁ : (0.8 : ℝ) ≤ 1 + afibCycleVariation cycle * 0.2 := by linarith
  have hd₂ : 1 + afibCycleVariation cycle * 0.2 ≤ 1.2 := by linarith
  have hpos : 0 < afibBaseRR cycle := by
    rw [afibBaseRR]
    exact div_pos (by norm_num) (by linarith)
  have hxnn : 0 ≤ (position : ℝ) * afibBaseRR cycle :=
    mul_nonneg (by exact_mod_cast h0) (le_of_lt hpos)
  refine ⟨hd₁, hd₂, hpos, ?_, ?_⟩
  · unfold afibAdjustedPosition jsFmod1
    rw [if_pos hxnn, Int.self_sub_floor]
    exact Int.fract_nonneg ((position : ℝ) * afibBaseRR cycle)
  · unfold afibAdjustedPosition jsFmod1
    rw [if_pos hxnn, Int.self_sub_floor]
    exact Int.fract_lt_one ((position : ℝ) * afibBaseRR cycle)

/-- C10 witness. -/
theorem afib_rr_denominator_safe_witness :
    (0 : ℚ) ≤ 0 ∧ (0 : ℚ) < 1 ∧ 0 < afibBaseRR 0 :=
  ⟨le_refl 0, by norm_num, (afib_rr_denominator_safe 0 0 (le_refl 0) (by norm_num)).2.2.1⟩

/-- C6 counterexample: for lead II the AFib profile QRS amplitude is `1.1`,
not `1.0` as claimed for every lead. -/
theorem afib_profile_qrs_amp_counterexample :
    (getAFibRhythmProfile Lead.II).qrsComplex.amplitude = 1.1 ∧ (1.1 : ℚ) ≠ 1 :=
  ⟨rfl, by norm_num⟩

/-- C6 (amended): for every lead, the AFib profile has an absent P wave
(`present = false`, amplitude `0`, duration `0`); QRS amplitude `1.0` of
normal duration `0.08` — except lead II, where the amplitude is `1.1`;
T wave present with amplitude `0.3`; `baselineNoise = 0.05` (`0.07` for
V1); and `rateVariability = 0.4`. -/
theorem afib_profile_spec (lead : Lead) :
    (getAFibRhythmProfile lead).pWave.present = false ∧
    (getAFibRhythmProfile lead).pWave.amplitude = 0 ∧
    (getAFibRhythmProfile lead).pWave.duration = 0 ∧
    (getAFibRhythmProfile lead).qrsComplex.amplitude =
      (if lead = Lead.II then 1.1 else 1.0) ∧
    (getAFibRhythmProfile lead).qrsComplex.duration = 0.08 ∧
    (getAFibRhythmProfile lead).qrsComplex.morphology = Morphology.normal ∧
    (getAFibRhythmProfile lead).tWave.present = true ∧
    (getAFibRhythmProfile lead).tWave.amplitude = 0.3 ∧
    (getAFibRhythmProfile lead).tWave.duration = 0.16 ∧
    (getAFibRhythmProfile lead).baselineNoise =
      (if lead = Lead.V1 then 0.07 else 0.05) ∧
    (getAFibRhythmProfile lead).rateVariability = 0.4 := by
  cases lead <;> exact ⟨rfl, rfl, rfl, rfl, rfl, rfl, rfl, rfl, rfl, rfl, rfl⟩

/-- C8 counterexample: at the documented example parameters
(`prInterval = 0.16`, `qrsWidth = 0.08`, `qtInterval = 0.36`) the claimed
identity `qrsStart + qrsWidth + stSegment + tDuration = qtInterval` fails:
the left side is `0.52`. -/
theorem normal_qt_equation_counterexample :
    0.16 + 0.08 + normalStSegmentDuration 0.08 0.36 + 0.16 = (0.52 : ℚ) ∧
    (0.52 : ℚ) ≠ 0.36 := by
  constructor
  · rw [normalStSegmentDuration,
      max_eq_right (by norm_num : (0.05 : ℚ) ≤ 0.36 - 0.08 - 0.16)]
    norm_num
  · norm_num

/-- C8 (amended): in the Normal generator the T duration is the constant
`0.16`, the ST-segment duration is `max(0.05, qtInterval − qrsWidth −
0.16)`, the T window starts at `qrsStart + qrsWidth + stSegment`, and —
without the erroneous `qrsStart` term — `qrsWidth + stSegment + tDuration =
qtInterval` whenever the `0.05` floor does not bind
(`qtInterval − qrsWidth − 0.16 ≥ 0.05`). -/
theorem normal_qt_equation (prInterval qrsWidth qtInterval : ℚ)
    (h : 0.05 ≤ qtInterval - qrsWidth - 0.16) :
    normalStSegmentDuration qrsWidth qtInterval = qtInterval - qrsWidth - 0.16 ∧
    qrsWidth + normalStSegmentDuration qrsWidth qtInterval + 0.16 = qtInterval ∧
    normalTStart prInterval qrsWidth qtInterval =
      prInterval + qrsWidth + normalStSegmentDuration qrsWidth qtInterval ∧
    normalTStart prInterval qrsWidth qtInterval + 0.16 = prInterval + qtInterval := by
  have hst : normalStSegmentDuration qrsWidth qtInterval = qtInterval - qrsWidth - 0.16 :=
    max_eq_right h
  refine ⟨hst, by rw [hst]; ring, rfl, ?_⟩
  rw [normalTStart, hst]
  ring

/-- C8 witness. -/
theorem normal_qt_equation_witness :
    (0.05 : ℚ) ≤ 0.36 - 0.08 - 0.16 ∧
    0.08 + normalStSegmentDuration 0.08 0.36 + 0.16 = (0.36 : ℚ) :=
  ⟨by norm_num, (normal_qt_equation 0.16 0.08 0.36 (by norm_num)).2.1⟩

lemma jsRound_eq (q : ℚ) (z : ℤ) (h1 : (z : ℚ) ≤ q + 1/2) (h2 : q + 1/2 < z + 1) :
    jsRound q = z :=
  Int.floor_eq_iff.mpr ⟨h1, by exact_mod_cast h2⟩

lemma pointsPerCycle_60 : pointsPerCycle 60 = 250 := by
  unfold pointsPerCycle
  exact jsRound_eq _ _ (by norm_num [cycleLength, sampleRate])
    (by norm_num [cycleLength, sampleRate])

lemma secondsToGenerate_60 : secondsToGenerate 60 = 5 := by
  unfold secondsToGenerate
  rw [cycleLength_eq]
  norm_num

lemma totalPoints_60 : totalPoints 60 = 1250 := by
  unfold totalPoints
  rw [secondsToGenerate_60]
  rw [jsRound_eq (5 * sampleRate) 1250 (by norm_num [sampleRate]) (by norm_num [sampleRate])]
  rfl

lemma samplePoint_normal_y (heartRate : ℚ) (lead : Lead) (prInterval : ℚ)
    (qrsWidth qtInterval amplitudeGain : ℚ) (noise : ℕ → ℝ) (i : ℕ) :
    (samplePoint "normal" heartRate lead prInterval false qrsWidth qtInterval
      amplitudeGain noise i).y =
    (0 + generateNormalSinusPoint
        ((((i : ℤ) % pointsPerCycle heartRate : ℤ) : ℚ) / ((pointsPerCycle heartRate : ℤ) : ℚ))
        (getNormalRhythmProfile lead prInterval) prInterval qrsWidth qtInterval) *
      ((amplitudeGain * (if lead = Lead.II ∨ lead = Lead.V5 then 1.0
        else if lead = Lead.V1 ∨ lead = Lead.V2 then 1.2 else 0.9) : ℚ) : ℝ) := rfl

lemma nsp_II_at_192 :
    generateNormalSinusPoint (48 / 250) (getNormalRhythmProfile Lead.II 0.16)
      0.16 0.08 0.36 = 1.1 := by
  norm_num [generateNormalSinusPoint, getNormalRhythmProfile, normalTStart,
    normalStSegmentDuration]

lemma nsp_aVR_at_192 :
    generateNormalSinusPoint (48 / 250) (getNormalRhythmProfile Lead.aVR 0.16)
      0.16 0.08 0.36 = -0.7 := by
  norm_num [generateNormalSinusPoint, getNormalRhythmProfile, normalTStart,
    normalStSegmentDuration]

lemma nsp_II_at_176 :
    generateNormalSinusPoint (44 / 250) (getNormalRhythmProfile Lead.II 0.16)
      0.16 0.08 0.36 = 0 := by
  norm_num [generateNormalSinusPoint, getNormalRhythmProfile, normalTStart,
    normalStSegmentDuration, Real.zero_rpow]

lemma cyclePosition_60_44 :
    ((((44 : ℕ) : ℤ) % pointsPerCycle 60 : ℤ) : ℚ) / ((pointsPerCycle 60 : ℤ) : ℚ) =
      44 / 250 := by
  rw [pointsPerCycle_60]
  norm_num

lemma cyclePosition_60_48 :
    ((((48 : ℕ) : ℤ) % pointsPerCycle 60 : ℤ) : ℚ) / ((pointsPerCycle 60 : ℤ) : ℚ) =
      48 / 250 := by
  rw [pointsPerCycle_60]
  norm_num

lemma gain_II : ((1 * (if Lead.II = Lead.II ∨ Lead.II = Lead.V5 then (1.0 : ℚ)
    else if Lead.II = Lead.V1 ∨ Lead.II = Lead.V2 then 1.2 else 0.9) : ℚ) : ℝ) = 1 := by
  norm_num

lemma gain_aVR : ((1 * (if Lead.aVR = Lead.II ∨ Lead.aVR = Lead.V5 then (1.0 : ℚ)
    else if Lead.aVR = Lead.V1 ∨ Lead.aVR = Lead.V2 then 1.2 else 0.9) : ℚ) : ℝ) = 0.9 := by
  rw [if_neg (by decide : ¬(Lead.aVR = Lead.II ∨ Lead.aVR = Lead.V5)),
    if_neg (by decide : ¬(Lead.aVR = Lead.V1 ∨ Lead.aVR = Lead.V2))]
  norm_num

lemma normal_profile_amp_bounds (lead : Lead) (hlead : lead ≠ Lead.aVR) (prInterval : ℚ) :
    (getNormalRhythmProfile lead prInterval).pWave.amplitude ≤ 0.25 ∧
    (getNormalRhythmProfile lead prInterval).tWave.amplitude ≤ 0.3 ∧
    0.3 ≤ (getNormalRhythmProfile lead prInterval).qrsComplex.amplitude := by
  cases lead <;>
    first
      | exact absurd rfl hlead
      | exact ⟨by norm_num [getNormalRhythmProfile], by norm_num [getNormalRhythmProfile],
          by norm_num [getNormalRhythmProfile]⟩

lemma nsp_at_apex (prof : RhythmProfile) (prInterval qrsWidth qtInterval : ℚ)
    (hpr1 : 0.12 ≤ prInterval) (hw1 : 0.06 ≤ qrsWidth) :
    generateNormalSinusPoint (prInterval + 0.4 * qrsWidth) prof prInterval qrsWidth
      qtInterval = (prof.qrsComplex.amplitude : ℝ) := by
  have hst : (0.05 : ℚ) ≤ normalStSegmentDuration qrsWidth qtInterval := le_max_left _ _
  have htv : normalTStart prInterval qrsWidth qtInterval =
      prInterval + qrsWidth + normalStSegmentDuration qrsWidth qtInterval := rfl
  have hw0 : (0 : ℚ) < qrsWidth := by linarith
  have hA : ¬((0.04 : ℚ) ≤ prInterval + 0.4 * qrsWidth ∧
      prInterval + 0.4 * qrsWidth < 0.04 + 0.08) := by
    rintro ⟨_, h⟩; linarith
  have hB : prInterval ≤ prInterval + 0.4 * qrsWidth ∧
      prInterval + 0.4 * qrsWidth < prInterval + qrsWidth := ⟨by linarith, by linarith⟩
  have hC : ¬(prInterval + qrsWidth ≤ prInterval + 0.4 * qrsWidth ∧
      prInterval + 0.4 * qrsWidth < normalTStart prInterval qrsWidth qtInterval) := by
    rintro ⟨h, _⟩; linarith
  have hD : ¬(normalTStart prInterval qrsWidth qtInterval ≤ prInterval + 0.4 * qrsWidth ∧
      prInterval + 0.4 * qrsWidth <
        normalTStart prInterval qrsWidth qtInterval + 0.16) := by
    rintro ⟨h, _⟩; rw [htv] at h; linarith
  have hq04 : (prInterval + 0.4 * qrsWidth - prInterval) / qrsWidth = (0.4 : ℚ) := by
    rw [show prInterval + 0.4 * qrsWidth - prInterval = 0.4 * qrsWidth by ring,
      mul_div_assoc, div_self hw0.ne', mul_one]
  simp only [generateNormalSinusPoint, hA, hB, hC, hD, hq04, and_self,
    if_true, if_false, ite_true, ite_false]
  norm_num

set_option maxHeartbeats 1000000 in
lemma nsp_le_of_profile_bounds (prof : RhythmProfile) (prInterval qrsWidth qtInterval p : ℚ)
    (hpr1 : 0.12 ≤ prInterval) (hpr2 : prInterval ≤ 0.2)
    (hw1 : 0.06 ≤ qrsWidth) (hw2 : qrsWidth ≤ 0.12)
    (hqt1 : 0.3 ≤ qtInterval) (hqt2 : qtInterval ≤ 0.5)
    (hpa : prof.pWave.amplitude ≤ 0.25)
    (hta : prof.tWave.amplitude ≤ 0.3)
    (hqa : 0.3 ≤ prof.qrsComplex.amplitude) :
    generateNormalSinusPoint p prof prInterval qrsWidth qtInterval ≤
      (prof.qrsComplex.amplitude : ℝ) := by
  have hst : (0.05 : ℚ) ≤ normalStSegmentDuration qrsWidth qtInterval := le_max_left _ _
  have htv : normalTStart prInterval qrsWidth qtInterval =
      prInterval + qrsWidth + normalStSegmentDuration qrsWidth qtInterval := rfl
  have hqR : ((0.3 : ℚ) : ℝ) ≤ (prof.qrsComplex.amplitude : ℝ) := Rat.cast_le.mpr hqa
  push_cast at hqR
  have hqA0 : (0 : ℝ) ≤ (prof.qrsComplex.amplitude : ℝ) := le_trans (by norm_num) hqR
  by_cases hA : (0.04 : ℚ) ≤ p ∧ p < 0.04 + 0.08
  · -- P-wave window [0.04, 0.12): the QRS/ST/T windows start at 0.12 or later
    have hB : ¬(prInterval ≤ p ∧ p < prInterval + qrsWidth) := by
      rintro ⟨h, _⟩; rcases hA with ⟨_, h2⟩; linarith
    have hC : ¬(prInterval + qrsWidth ≤ p ∧
        p < normalTStart prInterval qrsWidth qtInterval) := by
      rintro ⟨h, _⟩; rcases hA with ⟨_, h2⟩; linarith
    have hD : ¬(normalTStart prInterval qrsWidth qtInterval ≤ p ∧
        p < normalTStart prInterval qrsWidth qtInterval + 0.16) := by
      rintro ⟨h, _⟩; rw [htv] at h; rcases hA with ⟨_, h2⟩; linarith
    simp only [generateNormalSinusPoint, hA, hB, hC, hD, and_self, if_true, if_false,
      ite_true, ite_false]
    obtain ⟨ha1, ha2⟩ := hA
    have hpR : (prof.pWave.amplitude : ℝ) ≤ ((0.25 : ℚ) : ℝ) := Rat.cast_le.mpr hpa
    push_cast at hpR
    have hx0 : (0 : ℝ) ≤ (((p - 0.04) / 0.08 : ℚ) : ℝ) :=
      Rat.cast_nonneg.mpr (div_nonneg (by linarith) (by norm_num))
    have hx1 : (((p - 0.04) / 0.08 : ℚ) : ℝ) ≤ 1 := by
      have : ((p - 0.04) / 0.08 : ℚ) ≤ 1 := by
        rw [div_le_one (by norm_num : (0 : ℚ) < 0.08)]; linarith
      exact_mod_cast this
    have hpi := Real.pi_pos
    have hs0 : 0 ≤ Real.sin (Real.pi * (((p - 0.04) / 0.08 : ℚ) : ℝ)) := by
      apply Real.sin_nonneg_of_nonneg_of_le_pi
      · exact mul_nonneg hpi.le hx0
      · nlinarith [hpi, hx1]
    have hs1 := Real.sin_le_one (Real.pi * (((p - 0.04) / 0.08 : ℚ) : ℝ))
    nlinarith [hs0, hs1, hpR, hqR, mul_nonneg (sub_nonneg.mpr hpR) hs0]
  · by_cases hQ : prInterval ≤ p ∧ p < prInterval + qrsWidth
    · -- QRS window [prInterval, prInterval + qrsWidth)
      have hC : ¬(prInterval + qrsWidth ≤ p ∧
          p < normalTStart prInterval qrsWidth qtInterval) := by
        rintro ⟨h, _⟩; rcases hQ with ⟨_, h2⟩; linarith
      have hD : ¬(normalTStart prInterval qrsWidth qtInterval ≤ p ∧
          p < normalTStart prInterval qrsWidth qtInterval + 0.16) := by
        rintro ⟨h, _⟩; rw [htv] at h; rcases hQ with ⟨_, h2⟩; linarith
      obtain ⟨hq1, hq2⟩ := hQ
      have hw0 : (0 : ℚ) < qrsWidth := by linarith
      have hq0 : (0 : ℚ) ≤ (p - prInterval) / qrsWidth :=
        div_nonneg (by linarith) hw0.le
      have hq9 : (p - prInterval) / qrsWidth < 1 := by
        rw [div_lt_one hw0]; linarith
      by_cases h02 : (p - prInterval) / qrsWidth < 0.2
      · -- Q-wave: negative ramp
        simp only [generateNormalSinusPoint, hA, hC, hD, h02, and_self, if_true,
          if_false, ite_true, ite_false,
          (show (prInterval ≤ p ∧ p < prInterval + qrsWidth) from ⟨hq1, hq2⟩)]
        have hcR : (0 : ℝ) ≤ (((p - prInterval) / qrsWidth / 0.2 : ℚ) : ℝ) :=
          Rat.cast_nonneg.mpr (div_nonneg hq0 (by norm_num))
        have key := mul_nonneg (mul_nonneg hqA0 (by norm_num : (0 : ℝ) ≤ 0.2)) hcR
        linarith [key, hqA0]
      · by_cases h04 : (p - prInterval) / qrsWidth < 0.4
        · -- R-wave: rising rpow segment
          simp only [generateNormalSinusPoint, hA, hC, hD, h02, h04, and_self,
            if_true, if_false, ite_true, ite_false,
            (show (prInterval ≤ p ∧ p < prInterval + qrsWidth) from ⟨hq1, hq2⟩)]
          push_neg at h02
          have hb0 : (0 : ℝ) ≤ ((((p - prInterval) / qrsWidth - 0.2) / 0.2 : ℚ) : ℝ) :=
            Rat.cast_nonneg.mpr (div_nonneg (by linarith) (by norm_num))
          have hb1 : ((((p - prInterval) / qrsWidth - 0.2) / 0.2 : ℚ) : ℝ) ≤ 1 := by
            have : (((p - prInterval) / qrsWidth - 0.2) / 0.2 : ℚ) ≤ 1 := by
              rw [div_le_one (by norm_num : (0 : ℚ) < 0.2)]; linarith
            exact_mod_cast this
          have hr := Real.rpow_le_one hb0 hb1 (by norm_num : (0 : ℝ) ≤ 0.8)
          nlinarith [mul_nonneg hqA0 (sub_nonneg.mpr hr)]
        · by_cases h07 : (p - prInterval) / qrsWidth < 0.7
          · -- S-wave: linear descent below the amplitude
            simp only [generateNormalSinusPoint, hA, hC, hD, h02, h04, h07, and_self,
              if_true, if_false, ite_true, ite_false,
              (show (prInterval ≤ p ∧ p < prInterval + qrsWidth) from ⟨hq1, hq2⟩)]
            push_neg at h04
            have hcR : (0 : ℝ) ≤ ((((p - prInterval) / qrsWidth - 0.4) / 0.3 : ℚ) : ℝ) :=
              Rat.cast_nonneg.mpr (div_nonneg (by linarith) (by norm_num))
            have key := mul_nonneg hqA0 (mul_nonneg hcR (by norm_num : (0 : ℝ) ≤ 1.2))
            nlinarith [key]
          · -- taper back to baseline
            simp only [generateNormalSinusPoint, hA, hC, hD, h02, h04, h07, and_self,
              if_true, if_false, ite_true, ite_false,
              (show (prInterval ≤ p ∧ p < prInterval + qrsWidth) from ⟨hq1, hq2⟩)]
            push_neg at h07
            have hr0 : (0 : ℝ) ≤ ((((p - prInterval) / qrsWidth - 0.7) / 0.3 : ℚ) : ℝ) :=
              Rat.cast_nonneg.mpr (div_nonneg (by linarith) (by norm_num))
            have hm0 : (0 : ℝ) ≤
                max 0 (1 - ((((p - prInterval) / qrsWidth - 0.7) / 0.3 : ℚ) : ℝ)) :=
              le_max_left _ _
            have hm1 : max 0 (1 - ((((p - prInterval) / qrsWidth - 0.7) / 0.3 : ℚ) : ℝ)) ≤
                1 := max_le (by norm_num) (by linarith)
            have keyA : (0 : ℝ) ≤ (prof.qrsComplex.amplitude : ℝ) -
                (0 + (prof.qrsComplex.amplitude : ℝ) *
                  (1 - ((((p - prInterval) / qrsWidth - 0.7) / 0.3 : ℚ) : ℝ))) := by
              nlinarith [mul_nonneg hqA0 hr0]
            have key := mul_nonneg keyA hm0
            have key2 : (0 : ℝ) ≤ (prof.qrsComplex.amplitude : ℝ) *
                (1 - max 0 (1 - ((((p - prInterval) / qrsWidth - 0.7) / 0.3 : ℚ) : ℝ))) :=
              mul_nonneg hqA0 (by linarith [hm1])
            nlinarith [key, key2, hm0, hm1, hqA0]
    · by_cases hC : prInterval + qrsWidth ≤ p ∧
          p < normalTStart prInterval qrsWidth qtInterval
      · -- ST segment: flat (stElevation is absent, hence 0)
        have hD : ¬(normalTStart prInterval qrsWidth qtInterval ≤ p ∧
            p < normalTStart prInterval qrsWidth qtInterval + 0.16) := by
          rcases hC with ⟨_, h2⟩; rintro ⟨h, _⟩; linarith
        simp only [generateNormalSinusPoint, hA, hQ, hC, hD, and_self,
          if_true, if_false, ite_true, ite_false]
        nlinarith [hqR]
      · by_cases hD : normalTStart prInterval qrsWidth qtInterval ≤ p ∧
            p < normalTStart prInterval qrsWidth qtInterval + 0.16
        · -- T wave: Gaussian bounded by the T amplitude
          rw [htv] at hC hD
          simp only [generateNormalSinusPoint, htv, hA, hQ, hC, hD, and_self,
            if_true, if_false, ite_true, ite_false, gaussian]
          have htR : (prof.tWave.amplitude : ℝ) ≤ ((0.3 : ℚ) : ℝ) := Rat.cast_le.mpr hta
          push_cast at htR
          have harg : -((((p - (prInterval + qrsWidth + normalStSegmentDuration qrsWidth
              qtInterval)) / 0.16 : ℚ) : ℝ) - 0.4) ^ 2 / (2 * (0.3 : ℝ) ^ 2) ≤ 0 := by
            apply div_nonpos_of_nonpos_of_nonneg
            · simp [sq_nonneg]
            · norm_num
          have he := Real.exp_le_one_iff.mpr harg
          have hepos := Real.exp_nonneg (-((((p - (prInterval + qrsWidth +
              normalStSegmentDuration qrsWidth qtInterval)) / 0.16 : ℚ) : ℝ) - 0.4) ^ 2 /
              (2 * (0.3 : ℝ) ^ 2))
          nlinarith [he, hepos, htR, hqR, mul_nonneg (sub_nonneg.mpr htR) hepos]
        · -- outside every window: baseline 0
          simp only [generateNormalSinusPoint, hA, hQ, hC, hD, and_self,
            if_true, if_false, ite_true, ite_false]
          linarith [hqR]

/-- C2 counterexample: in the §8 example the sample at the claimed peak
phase `prInterval + 0.2×qrsWidth` (time 0.176 s, index 44) has voltage `0`,
strictly below the voltage `1.1` of the sample at index 48, so the
maximum-voltage sample of beat 0 does not occur at that phase. -/
theorem normal_qrs_peak_phase_counterexample :
    ((generateWaveform "normal" 60 Lead.II 0.16 false 0.08 0.36 1 noNoise).getD 44
      ⟨0, 0⟩).y = 0 ∧
    ((generateWaveform "normal" 60 Lead.II 0.16 false 0.08 0.36 1 noNoise).getD 48
      ⟨0, 0⟩).y = 1.1 ∧
    (0 : ℝ) < 1.1 := by
  have h44 : (44 : ℕ) < totalPoints 60 := by rw [totalPoints_60]; norm_num
  have h48 : (48 : ℕ) < totalPoints 60 := by rw [totalPoints_60]; norm_num
  refine ⟨?_, ?_, by norm_num⟩
  · rw [generateWaveform_getD "normal" 60 Lead.II 0.16 false 0.08 0.36 1 noNoise 44 h44,
      samplePoint_normal_y, cyclePosition_60_44, nsp_II_at_176, gain_II]
    norm_num
  · rw [generateWaveform_getD "normal" 60 Lead.II 0.16 false 0.08 0.36 1 noNoise 48 h48,
      samplePoint_normal_y, cyclePosition_60_48, nsp_II_at_192, gain_II]
    norm_num

/-- C2 (amended): for parameters in the documented ranges (prInterval
0.12-0.20, qrsWidth 0.06-0.12, qtInterval 0.30-0.50) and every lead except
aVR (whose QRS deflection is negative, so the maximum-voltage sample is not
the R apex), the Normal waveform attains its maximum at cycle phase
`prInterval + 0.4×qrsWidth` — the R apex at 40% of the QRS width, not 20% —
with peak value equal to the profile QRS amplitude; the timing is
heart-rate independent because the per-point generator depends on phase
only.  In the §8 example every sample is `≤ 1.1` and the sample at index 48
(time 0.192 s = phase `0.16 + 0.4×0.08` of beat 0) attains exactly `1.1`. -/
theorem normal_qrs_peak_phase (lead : Lead) (prInterval qrsWidth qtInterval p : ℚ)
    (i : ℕ) (hlead : lead ≠ Lead.aVR)
    (hpr1 : 0.12 ≤ prInterval) (hpr2 : prInterval ≤ 0.2)
    (hw1 : 0.06 ≤ qrsWidth) (hw2 : qrsWidth ≤ 0.12)
    (hqt1 : 0.3 ≤ qtInterval) (hqt2 : qtInterval ≤ 0.5)
    (hi : i < (generateWaveform "normal" 60 Lead.II 0.16 false 0.08 0.36 1 noNoise).length) :
    generateNormalSinusPoint p (getNormalRhythmProfile lead prInterval)
        prInterval qrsWidth qtInterval ≤
      generateNormalSinusPoint (prInterval + 0.4 * qrsWidth)
        (getNormalRhythmProfile lead prInterval) prInterval qrsWidth qtInterval ∧
    generateNormalSinusPoint (prInterval + 0.4 * qrsWidth)
        (getNormalRhythmProfile lead prInterval) prInterval qrsWidth qtInterval =
      ((getNormalRhythmProfile lead prInterval).qrsComplex.amplitude : ℝ) ∧
    ((generateWaveform "normal" 60 Lead.II 0.16 false 0.08 0.36 1 noNoise).getD i
      ⟨0, 0⟩).y ≤ 1.1 ∧
    ((generateWaveform "normal" 60 Lead.II 0.16 false 0.08 0.36 1 noNoise).getD 48
      ⟨0, 0⟩).y = 1.1 ∧
    ((generateWaveform "normal" 60 Lead.II 0.16 false 0.08 0.36 1 noNoise).getD 48
      ⟨0, 0⟩).x = 48 / 250 := by
  obtain ⟨hpb, htb, hqb⟩ := normal_profile_amp_bounds lead hlead prInterval
  have happ := nsp_at_apex (getNormalRhythmProfile lead prInterval) prInterval qrsWidth
    qtInterval hpr1 hw1
  have hble := nsp_le_of_profile_bounds (getNormalRhythmProfile lead prInterval)
    prInterval qrsWidth qtInterval p hpr1 hpr2 hw1 hw2 hqt1 hqt2 hpb htb hqb
  have h48 : (48 : ℕ) < totalPoints 60 := by rw [totalPoints_60]; norm_num
  rw [generateWaveform_length] at hi
  obtain ⟨hpbII, htbII, hqbII⟩ := normal_profile_amp_bounds Lead.II (by decide) 0.16
  have hampII : ((getNormalRhythmProfile Lead.II 0.16).qrsComplex.amplitude : ℝ) = 1.1 := by
    norm_num [getNormalRhythmProfile]
  refine ⟨by rw [happ]; exact hble, happ, ?_, ?_, ?_⟩
  · rw [generateWaveform_getD "normal" 60 Lead.II 0.16 false 0.08 0.36 1 noNoise i hi,
      samplePoint_normal_y, gain_II, mul_one]
    have hb := nsp_le_of_profile_bounds (getNormalRhythmProfile Lead.II 0.16)
      0.16 0.08 0.36
      ((((i : ℤ) % pointsPerCycle 60 : ℤ) : ℚ) / ((pointsPerCycle 60 : ℤ) : ℚ))
      (by norm_num) (by norm_num) (by norm_num) (by norm_num) (by norm_num) (by norm_num)
      hpbII htbII hqbII
    rw [hampII] at hb
    linarith
  · rw [generateWaveform_getD "normal" 60 Lead.II 0.16 false 0.08 0.36 1 noNoise 48 h48,
      samplePoint_normal_y, cyclePosition_60_48, nsp_II_at_192, gain_II]
    norm_num
  · rw [generateWaveform_getD "normal" 60 Lead.II 0.16 false 0.08 0.36 1 noNoise 48 h48,
      samplePoint_x]
    norm_num

/-- C2 witness. -/
theorem normal_qrs_peak_phase_witness :
    (Lead.II ≠ Lead.aVR ∧ (0.12 : ℚ) ≤ 0.16 ∧ (0.16 : ℚ) ≤ 0.2 ∧ (0.06 : ℚ) ≤ 0.08 ∧
      (0.08 : ℚ) ≤ 0.12 ∧ (0.3 : ℚ) ≤ 0.36 ∧ (0.36 : ℚ) ≤ 0.5 ∧
      (48 : ℕ) < (generateWaveform "normal" 60 Lead.II 0.16 false 0.08 0.36 1
        noNoise).length) ∧
    generateNormalSinusPoint (0.16 + 0.4 * 0.08) (getNormalRhythmProfile Lead.II 0.16)
      0.16 0.08 0.36 =
      ((getNormalRhythmProfile Lead.II 0.16).qrsComplex.amplitude : ℝ) ∧
    ((generateWaveform "normal" 60 Lead.II 0.16 false 0.08 0.36 1 noNoise).getD 48
      ⟨0, 0⟩).y = 1.1 := by
  have h48 : (48 : ℕ) < (generateWaveform "normal" 60 Lead.II 0.16 false 0.08 0.36 1
      noNoise).length := by
    rw [generateWaveform_length, totalPoints_60]; norm_num
  have happly := normal_qrs_peak_phase Lead.II 0.16 0.08 0.36 0 48 (by decide)
    (by norm_num) (by norm_num) (by norm_num) (by norm_num) (by norm_num) (by norm_num)
    h48
  exact ⟨⟨by decide, by norm_num, by norm_num, by norm_num, by norm_num, by norm_num,
    by norm_num, h48⟩, happly.2.1, happly.2.2.2.1⟩

/-- C7: the aVR Normal profile negates all three amplitudes (P, QRS, T are
all negative), and switching lead II → aVR in the §8 example flips the
voltage at the QRS apex sample (index 48) from positive (`1.1`) to negative
(`-0.63`), all other parameters held fixed. -/
theorem aVR_flips_qrs_sign (prInterval : ℚ) :
    (getNormalRhythmProfile Lead.aVR prInterval).pWave.amplitude < 0 ∧
    (getNormalRhythmProfile Lead.aVR prInterval).qrsComplex.amplitude < 0 ∧
    (getNormalRhythmProfile Lead.aVR prInterval).tWave.amplitude < 0 ∧
    0 < ((generateWaveform "normal" 60 Lead.II 0.16 false 0.08 0.36 1 noNoise).getD 48
      ⟨0, 0⟩).y ∧
    ((generateWaveform "normal" 60 Lead.aVR 0.16 false 0.08 0.36 1 noNoise).getD 48
      ⟨0, 0⟩).y < 0 := by
  have h48 : (48 : ℕ) < totalPoints 60 := by rw [totalPoints_60]; norm_num
  refine ⟨by norm_num [getNormalRhythmProfile], by norm_num [getNormalRhythmProfile],
    by norm_num [getNormalRhythmProfile], ?_, ?_⟩
  · rw [generateWaveform_getD "normal" 60 Lead.II 0.16 false 0.08 0.36 1 noNoise 48 h48,
      samplePoint_normal_y, cyclePosition_60_48, nsp_II_at_192, gain_II]
    norm_num
  · rw [generateWaveform_getD "normal" 60 Lead.aVR 0.16 false 0.08 0.36 1 noNoise 48 h48,
      samplePoint_normal_y, cyclePosition_60_48, nsp_aVR_at_192, gain_aVR]
    norm_num

lemma samplePoint_unknown_y (rhythm : String) (heartRate : ℚ) (lead : Lead)
    (prInterval qrsWidth qtInterval amplitudeGain : ℚ) (noise : ℕ → ℝ) (i : ℕ)
    (h1 : rhythm ≠ "normal") (h2 : rhythm ≠ "afib") (h3 : rhythm ≠ "vtach") :
    (samplePoint rhythm heartRate lead prInterval false qrsWidth qtInterval
      amplitudeGain noise i).y = 0 := by
  simp only [samplePoint, if_neg h1, if_neg h2, if_neg h3, Bool.false_eq_true,
    ite_false, zero_mul]

/-- C9 counterexample: with the unknown rhythm string `"sinus"`, the §8-style
call does not produce the same samples as `"normal"`: at index 48 the
unknown-rhythm voltage is the baseline `0` while the Normal voltage is
`1.1`, so the two sequences differ. -/
theorem unknown_rhythm_counterexample :
    generateWaveform "sinus" 60 Lead.II 0.16 false 0.08 0.36 1 noNoise ≠
    generateWaveform "normal" 60 Lead.II 0.16 false 0.08 0.36 1 noNoise := by
  intro h
  have h48 : (48 : ℕ) < totalPoints 60 := by rw [totalPoints_60]; norm_num
  have hy := congrArg (fun l : List WaveformPoint => (l.getD 48 ⟨0, 0⟩).y) h
  simp only at hy
  rw [generateWaveform_getD "sinus" 60 Lead.II 0.16 false 0.08 0.36 1 noNoise 48 h48,
    generateWaveform_getD "normal" 60 Lead.II 0.16 false 0.08 0.36 1 noNoise 48 h48,
    samplePoint_unknown_y "sinus" 60 Lead.II 0.16 0.08 0.36 1 noNoise 48
      (by decide) (by decide) (by decide),
    samplePoint_normal_y, cyclePosition_60_48, nsp_II_at_192, gain_II] at hy
  norm_num at hy

/-- C9 (amended): an unrecognized rhythm string is handled gracefully — the
profile switch falls back to the Normal profile and the call still returns a
well-formed series of the usual length with times `i/250` — but the
per-point rhythm dispatch matches none of the three generators, so (with
`addNoise = false`) every sample voltage is the baseline `0`: the output is
a flat line, not the Normal-rhythm waveform. -/
theorem unknown_rhythm_flat (rhythm : String) (heartRate : ℚ) (lead : Lead)
    (prInterval qrsWidth qtInterval amplitudeGain : ℚ) (noise : ℕ → ℝ)
    (h1 : rhythm ≠ "normal") (h2 : rhythm ≠ "afib") (h3 : rhythm ≠ "vtach") :
    (generateWaveform rhythm heartRate lead prInterval false qrsWidth qtInterval
      amplitudeGain noise).length = totalPoints heartRate ∧
    ∀ i : ℕ, i < totalPoints heartRate →
      ((generateWaveform rhythm heartRate lead prInterval false qrsWidth qtInterval
        amplitudeGain noise).getD i ⟨0, 0⟩).y = 0 ∧
      ((generateWaveform rhythm heartRate lead prInterval false qrsWidth qtInterval
        amplitudeGain noise).getD i ⟨0, 0⟩).x = (i : ℚ) / 250 := by
  refine ⟨generateWaveform_length _ _ _ _ _ _ _ _ _, fun i hi => ?_⟩
  rw [generateWaveform_getD rhythm heartRate lead prInterval false qrsWidth qtInterval
    amplitudeGain noise i hi]
  exact ⟨samplePoint_unknown_y rhythm heartRate lead prInterval qrsWidth qtInterval
    amplitudeGain noise i h1 h2 h3, samplePoint_x _ _ _ _ _ _ _ _ _ _⟩

/-- C9 witness. -/
theorem unknown_rhythm_flat_witness :
    ("sinus" ≠ "normal" ∧ "sinus" ≠ "afib" ∧ "sinus" ≠ "vtach" ∧ (0 : ℕ) < totalPoints 60) ∧
    ((generateWaveform "sinus" 60 Lead.II 0.16 false 0.08 0.36 1 noNoise).getD 0
      ⟨0, 0⟩).y = 0 := by
  have h0 : (0 : ℕ) < totalPoints 60 := by rw [totalPoints_60]; norm_num
  exact ⟨⟨by decide, by decide, by decide, h0⟩,
    ((unknown_rhythm_flat "sinus" 60 Lead.II 0.16 0.08 0.36 1 noNoise
      (by decide) (by decide) (by decide)).2 0 h0).1⟩
